import Mathlib

/-!
Verification development for the device-memory layer in
src/cuda/utils/Memory.h: the four GPU memory primitives
(gpu_malloc, gpu_free, gpu_memcpy_h2d, gpu_memcpy_d2h) and the
DevicePtrWrapper resource handle.

Modelling conventions:
  - Device and host pointers are natural numbers; 0 plays the role of the
    null pointer (nullptr), so a C++ test such as `if (ptr)` becomes
    `ptr != 0`.
  - The device runtime is modelled by an explicit Heap record that logs
    every gpu_malloc call (the element count requested) and every cudaFree
    call (the pointer passed), and hands out fresh non-null pointers from a
    counter that starts at 1. This makes "number of underlying allocations"
    and "pointers freed" directly observable.
  - Runtime statuses are modelled by CudaStatus; checkCudaErrors
    (from utils/Errors.h, fatal on any non-success status) is modelled as a
    Boolean flag: true means a fatal runtime-operation failure is raised.
  - Stateful member functions take and return the Heap explicitly; a member
    function that never touches the runtime simply does not take a Heap, or
    returns it unchanged.
-/

/-- A device runtime status as reported by CUDA calls: success, or a
numbered failure code. -/
inductive CudaStatus
  | success
  | failure (code : Nat)
deriving DecidableEq, Repr

/-- Model of checkCudaErrors from utils/Errors.h as used by Memory.h: the
process is fatally terminated exactly when the wrapped call reports a
non-success status. The Boolean is true iff a fatal runtime-operation
failure is raised. -/
def checkCudaErrors (s : CudaStatus) : Bool :=
  s != CudaStatus.success

/-- The observable state of the device runtime: a counter handing out fresh
non-null device pointers, the log of gpu_malloc requests (element counts,
most recent first) and the log of pointers passed to cudaFree (most recent
first). -/
structure Heap where
  next : Nat
  mallocCalls : List Nat
  freeCalls : List Nat
deriving DecidableEq, Repr

/-- The runtime before any allocation: the first pointer handed out is 1,
so every allocated pointer is non-null. -/
def freshH : Heap := ⟨1, [], []⟩

/-- gpu_malloc (Memory.h lines 7-11): requests a device buffer for `size`
elements via cudaMalloc wrapped in checkCudaErrors, writing the new pointer
through the reference argument. Modelled on the success path (a failure
terminates the process, see gpu_malloc_raises): the runtime hands out a
fresh pointer and logs the request. Returns (new heap, new pointer). -/
def gpu_malloc (h : Heap) (size : Nat) : Heap × Nat :=
  ({ h with next := h.next + 1, mallocCalls := size :: h.mallocCalls }, h.next)

/-- gpu_free (Memory.h lines 13-20): on a null pointer nothing happens;
otherwise cudaFree is called on the pointer (logged in freeCalls). -/
def gpu_free (h : Heap) (ptr : Nat) : Heap :=
  if ptr != 0 then { h with freeCalls := ptr :: h.freeCalls } else h

/-- Whether gpu_malloc raises a fatal runtime-operation failure, given the
status cudaMalloc reports: cudaMalloc is wrapped in checkCudaErrors
(Memory.h line 10), so any non-success status is fatal. -/
def gpu_malloc_raises (s : CudaStatus) : Bool :=
  checkCudaErrors s

/-- Whether gpu_free raises a fatal runtime-operation failure, given the
status cudaFree reports. The source (Memory.h lines 13-20) calls cudaFree
WITHOUT wrapping it in checkCudaErrors, so the reported status `s` is
discarded and no failure is ever raised; on a null pointer cudaFree is not
even called. -/
def gpu_free_raises (ptr : Nat) (s : CudaStatus) : Bool :=
  false

/-- Host or device memory contents: a map from addresses to values. -/
abbrev Mem := Nat → Int

/-- The effect of a successful cudaMemcpy of `n` elements from `srcPtr` in
`src` to `dstPtr` in `dst`: destination addresses in [dstPtr, dstPtr + n)
take the corresponding source values, all other addresses keep their old
contents. -/
def cudaMemcpy (dst src : Mem) (dstPtr srcPtr n : Nat) : Mem :=
  fun a => if dstPtr ≤ a ∧ a < dstPtr + n then src (srcPtr + (a - dstPtr)) else dst a

/-- gpu_memcpy_h2d (Memory.h lines 30-37): if either pointer is null it
silently returns; otherwise cudaMemcpy host-to-device wrapped in
checkCudaErrors. Returns the updated device memory and whether a fatal
runtime-operation failure is raised given the status `s` the runtime
reports. -/
def gpu_memcpy_h2d (dmem hmem : Mem) (device host : Nat) (size : Nat)
    (s : CudaStatus) : Mem × Bool :=
  if host = 0 ∨ device = 0 then (dmem, false)
  else (cudaMemcpy dmem hmem device host size, checkCudaErrors s)

/-- gpu_memcpy_d2h (Memory.h lines 47-54): if either pointer is null it
silently returns; otherwise cudaMemcpy device-to-host wrapped in
checkCudaErrors. Returns the updated host memory and whether a fatal
runtime-operation failure is raised given the status `s` the runtime
reports. -/
def gpu_memcpy_d2h (hmem dmem : Mem) (host device : Nat) (size : Nat)
    (s : CudaStatus) : Mem × Bool :=
  if host = 0 ∨ device = 0 then (hmem, false)
  else (cudaMemcpy hmem dmem host device size, checkCudaErrors s)

/-- DevicePtrWrapper (Memory.h lines 62-162): the three data members with
their in-class initializers `= nullptr`, `= nullptr`, `= 0`. -/
structure DevicePtrWrapper where
  d_external_ : Nat
  d_internal_ : Nat
  size_ : Nat
deriving DecidableEq, Repr

namespace DevicePtrWrapper

/-- The default constructor: all members take their in-class initializers
(both pointers null, recorded capacity 0). -/
def freshW : DevicePtrWrapper := ⟨0, 0, 0⟩

/-- isExternal (Memory.h line 128): `d_external_ != nullptr`. -/
def isExternal (w : DevicePtrWrapper) : Bool :=
  w.d_external_ != 0

/-- set_external (Memory.h line 119): `d_external_ = d;`. -/
def set_external (w : DevicePtrWrapper) (d : Nat) : DevicePtrWrapper :=
  { w with d_external_ := d }

/-- unset_external (Memory.h line 125): `d_external_ = nullptr;`. -/
def unset_external (w : DevicePtrWrapper) : DevicePtrWrapper :=
  { w with d_external_ := 0 }

/-- operator=(T* dptr) (Memory.h lines 81-85): calls set_external(dptr) and
returns *this. -/
def assignPtr (w : DevicePtrWrapper) (dptr : Nat) : DevicePtrWrapper :=
  w.set_external dptr

/-- size (Memory.h line 131): `return size_;`. -/
def size (w : DevicePtrWrapper) : Nat :=
  w.size_

/-- get (Memory.h lines 137-147): the external pointer if isExternal, else
the internal pointer. -/
def get (w : DevicePtrWrapper) : Nat :=
  if w.isExternal then w.d_external_ else w.d_internal_

/-- get, presented as a runtime-observing operation: the source body of get
performs no runtime call, so the heap passes through untouched. -/
def getH (w : DevicePtrWrapper) (h : Heap) : Nat × Heap :=
  (w.get, h)

/-- operator bool (Memory.h line 134): `get() != nullptr`. -/
def toBool (w : DevicePtrWrapper) : Bool :=
  w.get != 0

/-- allocate (Memory.h lines 97-113), line by line:
`if (!isExternal())` guards the whole body;
`if (d_internal_ && size_ < size) gpu_free(d_internal_);` frees a too-small
internal buffer (note: d_internal_ is NOT reset to null);
`if (d_internal_ && size_ >= size) return;` reuses a big-enough buffer;
otherwise `gpu_malloc(d_internal_, size); size_ = size;`. -/
def allocate (w : DevicePtrWrapper) (h : Heap) (size : Nat) :
    DevicePtrWrapper × Heap :=
  if w.isExternal then (w, h)
  else
    let h1 := if w.d_internal_ != 0 ∧ w.size_ < size then gpu_free h w.d_internal_ else h
    if w.d_internal_ != 0 ∧ size ≤ w.size_ then (w, h1)
    else
      let r := gpu_malloc h1 size
      ({ w with d_internal_ := r.2, size_ := size }, r.1)

/-- The move constructor (Memory.h line 73) is `= default`: it member-wise
moves d_external_, d_internal_ and size_. Moving a raw pointer or a size_t
is a plain copy that leaves the source member unchanged, so the moved-from
wrapper keeps all three members. Returns (destination, moved-from source).
The defaulted move assignment (line 75) behaves the same way on the
members. -/
def moveConstruct (w : DevicePtrWrapper) : DevicePtrWrapper × DevicePtrWrapper :=
  (⟨w.d_external_, w.d_internal_, w.size_⟩, ⟨w.d_external_, w.d_internal_, w.size_⟩)

/-- The destructor (Memory.h lines 150-156):
`if (d_internal_) gpu_free(d_internal_);` — only the internal pointer is
ever passed to gpu_free, the external pointer is never released. -/
def destruct (w : DevicePtrWrapper) (h : Heap) : Heap :=
  if w.d_internal_ != 0 then gpu_free h w.d_internal_ else h

end DevicePtrWrapper

open DevicePtrWrapper

/-- The public operations a caller can perform on a live wrapper (the
handle-level state machine used for reachability invariants). -/
inductive Op
  | alloc (n : Nat)
  | setExt (p : Nat)
  | unsetExt
  | assignP (p : Nat)
deriving DecidableEq, Repr

/-- One handle operation on the pair (wrapper state, runtime state). -/
def step : DevicePtrWrapper × Heap → Op → DevicePtrWrapper × Heap
  | (w, h), Op.alloc n => w.allocate h n
  | (w, h), Op.setExt p => (w.set_external p, h)
  | (w, h), Op.unsetExt => (w.unset_external, h)
  | (w, h), Op.assignP p => (w.assignPtr p, h)

/-- Run a list of operations (oldest last) from a default-constructed
wrapper on a fresh runtime. -/
def run : List Op → DevicePtrWrapper × Heap
  | [] => (freshW, freshH)
  | op :: ops => step (run ops) op

section HelperLemmas

/-- gpu_free never changes the fresh-pointer counter. -/
lemma gpu_free_next (h : Heap) (p : Nat) : (gpu_free h p).next = h.next := by
  unfold gpu_free
  split <;> rfl

/-- gpu_free never changes the malloc log. -/
lemma gpu_free_mallocCalls (h : Heap) (p : Nat) :
    (gpu_free h p).mallocCalls = h.mallocCalls := by
  unfold gpu_free
  split <;> rfl

/-- allocate on a default-constructed wrapper over a fresh runtime: one
malloc of the requested size, returning pointer 1. -/
lemma fresh_allocate (k : Nat) :
    freshW.allocate freshH k = (⟨0, 1, k⟩, ⟨2, [k], []⟩) := by
  simp [DevicePtrWrapper.allocate, DevicePtrWrapper.isExternal, freshW, freshH, gpu_malloc]

/-- allocate with an existing internal buffer of sufficient recorded
capacity changes nothing. -/
lemma allocate_reuse (w : DevicePtrWrapper) (h : Heap) (n : Nat)
    (hi : w.d_internal_ ≠ 0) (hn : n ≤ w.size_) :
    w.allocate h n = (w, h) := by
  unfold DevicePtrWrapper.allocate
  split
  · rfl
  · have hfree : ¬ ((w.d_internal_ != 0) = true ∧ w.size_ < n) := by
      rintro ⟨-, hlt⟩
      omega
    rw [if_neg hfree, if_pos ⟨bne_iff_ne.mpr hi, hn⟩]

/-- allocate with an existing internal buffer of insufficient recorded
capacity and no external pointer: the old buffer is freed, then a fresh
buffer of the requested size is allocated. -/
lemma allocate_grow (w : DevicePtrWrapper) (h : Heap) (n : Nat)
    (hx : w.isExternal = false) (hi : w.d_internal_ ≠ 0) (hn : w.size_ < n) :
    w.allocate h n =
      ({ w with d_internal_ := h.next, size_ := n },
       { h with next := h.next + 1, mallocCalls := n :: h.mallocCalls,
                freeCalls := w.d_internal_ :: h.freeCalls }) := by
  unfold DevicePtrWrapper.allocate
  rw [if_neg (by simp [hx])]
  rw [if_neg (show ¬ ((w.d_internal_ != 0) = true ∧ n ≤ w.size_) from fun hc => by omega)]
  rw [if_pos (show (w.d_internal_ != 0) = true ∧ w.size_ < n from ⟨bne_iff_ne.mpr hi, hn⟩)]
  simp [gpu_malloc, gpu_free, bne_iff_ne.mpr hi]

end HelperLemmas

/-- C1: the spec requires that moving a handle that owns an internal buffer
leaves the moved-from handle with a destructor that releases nothing, so
the buffer is released exactly once across both lifetimes. The code uses a
defaulted move constructor, which copies the raw internal pointer without
nulling the source: after move-constructing from a handle that allocated
buffer 1, the moved-from handle still records internal pointer 1, and
running both destructors passes buffer 1 to cudaFree twice. -/
theorem C1_double_free_on_move :
    ((freshW.allocate freshH 1).1.moveConstruct.2.d_internal_ = 1
      ∧ (freshW.allocate freshH 1).1.moveConstruct.2.d_internal_ ≠ 0)
    ∧ ((freshW.allocate freshH 1).1.moveConstruct.1.destruct
        ((freshW.allocate freshH 1).1.moveConstruct.2.destruct
          (freshW.allocate freshH 1).2)).freeCalls = [1, 1] := by
  decide

/-- C2 counterexample: the claim says allocate(n1) then allocate(n2) on a
fresh handle with n1 ≤ n2 causes exactly one underlying allocation. At
n1 = 1, n2 = 2 the code performs two gpu_malloc calls (sizes 1 then 2). -/
theorem C2_counterexample :
    (1 : Nat) ≤ 2
    ∧ ((freshW.allocate freshH 1).1.allocate (freshW.allocate freshH 1).2 2).2.mallocCalls
        = [2, 1]
    ∧ ¬ (((freshW.allocate freshH 1).1.allocate
          (freshW.allocate freshH 1).2 2).2.mallocCalls.length = 1) := by
  decide

/-- C3 counterexample: the claim says every primitive, in particular
gpu_free on a non-null buffer, raises a fatal failure when the runtime
reports non-success. The source calls cudaFree without the checkCudaErrors
wrapper, so gpu_free on pointer 1 with a failing status raises nothing. -/
theorem C3_counterexample :
    (1 : Nat) ≠ 0
    ∧ CudaStatus.failure 2 ≠ CudaStatus.success
    ∧ gpu_free_raises 1 (CudaStatus.failure 2) = false := by
  decide

/-- C3 amended: gpu_malloc, and both copy primitives when neither pointer
is null, raise a fatal runtime-operation failure on every non-success
status; gpu_free never raises a failure, silently discarding the status
cudaFree reports. -/
theorem C3_error_raising (dmem hmem : Mem) (device host n : Nat)
    (s : CudaStatus) (hs : s ≠ CudaStatus.success) (hd : device ≠ 0)
    (hh : host ≠ 0) :
    gpu_malloc_raises s = true
    ∧ (gpu_memcpy_h2d dmem hmem device host n s).2 = true
    ∧ (gpu_memcpy_d2h hmem dmem host device n s).2 = true
    ∧ (∀ (p : Nat) (s2 : CudaStatus), gpu_free_raises p s2 = false) := by
  have hc : checkCudaErrors s = true := bne_iff_ne.mpr hs
  have hcond : ¬ (host = 0 ∨ device = 0) := fun hor => hor.elim hh hd
  refine ⟨hc, ?_, ?_, fun p s2 => rfl⟩
  · unfold gpu_memcpy_h2d
    rw [if_neg hcond]
    exact hc
  · unfold gpu_memcpy_d2h
    rw [if_neg hcond]
    exact hc

/-- Witness for C3_error_raising at concrete inputs. -/
theorem C3_error_raising_witness :
    (CudaStatus.failure 7 ≠ CudaStatus.success ∧ (2 : Nat) ≠ 0 ∧ (3 : Nat) ≠ 0)
    ∧ (gpu_malloc_raises (CudaStatus.failure 7) = true
       ∧ (gpu_memcpy_h2d (fun _ => 0) (fun _ => 0) 2 3 4 (CudaStatus.failure 7)).2 = true
       ∧ (gpu_memcpy_d2h (fun _ => 0) (fun _ => 0) 3 2 4 (CudaStatus.failure 7)).2 = true
       ∧ (∀ (p : Nat) (s2 : CudaStatus), gpu_free_raises p s2 = false)) :=
  ⟨⟨by decide, by decide, by decide⟩,
   C3_error_raising (fun _ => 0) (fun _ => 0) 2 3 4 (CudaStatus.failure 7)
     (by decide) (by decide) (by decide)⟩

/-- Full case analysis of allocate, following the three guards of the
source: external wins; else a big-enough internal buffer is reused; else a
malloc happens (preceded by a free exactly when an internal buffer
exists). -/
lemma allocate_eq (w : DevicePtrWrapper) (h : Heap) (n : Nat) :
    w.allocate h n =
      if w.isExternal = true then (w, h)
      else if w.d_internal_ ≠ 0 ∧ n ≤ w.size_ then (w, h)
      else
        ({ w with d_internal_ := h.next, size_ := n },
         { next := h.next + 1, mallocCalls := n :: h.mallocCalls,
           freeCalls :=
             if w.d_internal_ ≠ 0 then w.d_internal_ :: h.freeCalls
             else h.freeCalls }) := by
  by_cases hx : w.isExternal
  · simp [DevicePtrWrapper.allocate, hx]
  · by_cases hi : w.d_internal_ = 0
    · simp [DevicePtrWrapper.allocate, hx, hi, gpu_malloc]
    · by_cases hn : n ≤ w.size_
      · rw [allocate_reuse w h n hi hn]
        simp [hx, hi, hn]
      · rw [allocate_grow w h n (by simp [hx]) hi (by omega)]
        simp [hx, hi, hn]

/-- Reachability invariant for the handle state machine: a null internal
pointer means recorded capacity 0, and the runtime counter stays at least
1 (so every pointer the runtime hands out is non-null). -/
def WInv (s : DevicePtrWrapper × Heap) : Prop :=
  (s.1.d_internal_ = 0 → s.1.size_ = 0) ∧ 1 ≤ s.2.next

lemma winv_step (s : DevicePtrWrapper × Heap) (op : Op) (hs : WInv s) :
    WInv (step s op) := by
  obtain ⟨w, h⟩ := s
  obtain ⟨h1, h2⟩ := hs
  cases op with
  | alloc n =>
    simp only [step]
    rw [allocate_eq]
    split
    · exact ⟨h1, h2⟩
    · split
      · exact ⟨h1, h2⟩
      · refine ⟨fun hint => ?_, ?_⟩
        · have h2' : 1 ≤ h.next := h2
          have hint' : h.next = 0 := hint
          omega
        · show 1 ≤ h.next + 1
          omega
  | setExt p => exact ⟨h1, h2⟩
  | unsetExt => exact ⟨h1, h2⟩
  | assignP p => exact ⟨h1, h2⟩

lemma winv_run (ops : List Op) : WInv (run ops) := by
  induction ops with
  | nil => exact ⟨fun _ => rfl, le_refl 1⟩
  | cons op ops ih => exact winv_step _ op ih

lemma step_size_mono (s : DevicePtrWrapper × Heap) (op : Op) (hs : WInv s) :
    s.1.size_ ≤ (step s op).1.size_ := by
  obtain ⟨w, h⟩ := s
  cases op with
  | alloc n =>
    simp only [step]
    rw [allocate_eq]
    split
    · exact le_refl _
    · split
      · exact le_refl _
      · show w.size_ ≤ n
        rename_i hc1 hc2
        by_cases hi : w.d_internal_ = 0
        · have hz : w.size_ = 0 := hs.1 hi
          omega
        · push_neg at hc2
          have hlt : w.size_ < n := hc2 hi
          omega
  | setExt p => exact le_refl _
  | unsetExt => exact le_refl _
  | assignP p => exact le_refl _

/-- The malloc log changes during allocate exactly when no external pointer
is set and the internal buffer is absent or recorded too small. -/
lemma allocate_malloc_iff (w : DevicePtrWrapper) (h : Heap) (n : Nat) :
    ((w.allocate h n).2.mallocCalls ≠ h.mallocCalls)
      ↔ (w.isExternal = false ∧ (w.d_internal_ = 0 ∨ w.size_ < n)) := by
  rw [allocate_eq]
  split
  · rename_i hx
    simp [hx]
  · rename_i hx
    split
    · rename_i hc
      constructor
      · intro habs
        exact absurd rfl habs
      · rintro ⟨-, hor⟩
        rcases hor with h0 | hlt
        · exact absurd h0 hc.1
        · exact absurd hc.2 (by omega)
    · rename_i hc
      constructor
      · intro hne
        refine ⟨by simpa using hx, ?_⟩
        by_cases hi : w.d_internal_ = 0
        · exact Or.inl hi
        · push_neg at hc
          exact Or.inr (hc hi)
      · intro hrhs
        show n :: h.mallocCalls ≠ h.mallocCalls
        simp

/-- C4 counterexample: the claim says an underlying allocation occurs during
allocate(n) only if n exceeds the recorded capacity, including n = 0 on a
handle with no internal buffer. On a default-constructed handle (capacity
0, no internal buffer, no external pointer) allocate(0) does call
gpu_malloc, although 0 does not exceed the recorded capacity 0. -/
theorem C4_counterexample :
    freshW.isExternal = false
    ∧ freshW.d_internal_ = 0
    ∧ ¬ (freshW.size_ < 0)
    ∧ (freshW.allocate freshH 0).2.mallocCalls = [0] := by
  decide

/-- C4 (amended): across every sequence of handle operations starting from
a default-constructed handle, the recorded capacity never decreases at any
step (so in particular never without a free); and an underlying allocation
occurs during allocate(n) exactly when no external pointer is set and
either no internal buffer exists or n exceeds the recorded capacity. -/
theorem C4_capacity_monotone_allocation_guard :
    (∀ (ops : List Op) (op : Op), (run ops).1.size_ ≤ (step (run ops) op).1.size_)
    ∧ (∀ (w : DevicePtrWrapper) (h : Heap) (n : Nat),
        ((w.allocate h n).2.mallocCalls ≠ h.mallocCalls)
          ↔ (w.isExternal = false ∧ (w.d_internal_ = 0 ∨ w.size_ < n))) :=
  ⟨fun ops op => step_size_mono (run ops) op (winv_run ops),
   fun w h n => allocate_malloc_iff w h n⟩

/-- C2 (amended): on a fresh handle with n1 ≤ n2, allocate(n1) then
allocate(n2) performs one underlying allocation when n1 = n2 (and frees
nothing) and two when n1 < n2 — the second sized for n2, the first buffer
freed before it — leaving recorded capacity n2; and allocate(n2) then
allocate(n1) performs no second allocation and changes nothing at all. -/
theorem C2_growth_allocation (n1 n2 : Nat) (hle : n1 ≤ n2) :
    (n1 = n2 →
      ((freshW.allocate freshH n1).1.allocate (freshW.allocate freshH n1).2 n2).2.mallocCalls
          = [n1]
      ∧ ((freshW.allocate freshH n1).1.allocate (freshW.allocate freshH n1).2 n2).2.freeCalls
          = [])
    ∧ (n1 < n2 →
      ((freshW.allocate freshH n1).1.allocate (freshW.allocate freshH n1).2 n2).2.mallocCalls
          = [n2, n1]
      ∧ ((freshW.allocate freshH n1).1.allocate (freshW.allocate freshH n1).2 n2).2.freeCalls
          = [1]
      ∧ ((freshW.allocate freshH n1).1.allocate (freshW.allocate freshH n1).2 n2).1.size_
          = n2)
    ∧ (freshW.allocate freshH n2).1.allocate (freshW.allocate freshH n2).2 n1
        = freshW.allocate freshH n2 := by
  refine ⟨fun heq => ?_, fun hlt => ?_, ?_⟩
  · rw [fresh_allocate n1,
        allocate_reuse ⟨0, 1, n1⟩ ⟨2, [n1], []⟩ n2 Nat.one_ne_zero (le_of_eq heq.symm)]
    exact ⟨rfl, rfl⟩
  · rw [fresh_allocate n1, allocate_grow ⟨0, 1, n1⟩ ⟨2, [n1], []⟩ n2 rfl Nat.one_ne_zero hlt]
    exact ⟨rfl, rfl, rfl⟩
  · rw [fresh_allocate n2, allocate_reuse ⟨0, 1, n2⟩ ⟨2, [n2], []⟩ n1 Nat.one_ne_zero hle]

/-- Witness for C2_growth_allocation at n1 = 1, n2 = 2. -/
theorem C2_growth_allocation_witness :
    (1 : Nat) ≤ 2
    ∧ ((freshW.allocate freshH 1).1.allocate (freshW.allocate freshH 1).2 2).2.mallocCalls
        = [2, 1] :=
  ⟨by decide, ((C2_growth_allocation 1 2 (by decide)).2.1 (by decide)).1⟩

/-- C5: on a handle with a non-null external pointer set, allocate with any
size changes neither the wrapper state nor the runtime state (no underlying
allocation), and get returns the external pointer. -/
theorem C5_external_allocate_noop (w : DevicePtrWrapper) (h : Heap) (n : Nat)
    (hx : w.d_external_ ≠ 0) :
    w.allocate h n = (w, h) ∧ w.get = w.d_external_ := by
  have hb : w.isExternal = true := bne_iff_ne.mpr hx
  constructor
  · unfold DevicePtrWrapper.allocate
    rw [if_pos hb]
  · unfold DevicePtrWrapper.get
    rw [if_pos hb]

/-- Witness for C5_external_allocate_noop with external pointer 5. -/
theorem C5_external_allocate_noop_witness :
    (5 : Nat) ≠ 0
    ∧ ((⟨5, 0, 0⟩ : DevicePtrWrapper).allocate freshH 3 = (⟨5, 0, 0⟩, freshH)
       ∧ (⟨5, 0, 0⟩ : DevicePtrWrapper).get = 5) :=
  ⟨by decide, C5_external_allocate_noop ⟨5, 0, 0⟩ freshH 3 (by decide)⟩

/-- C6: get returns the external pointer when it is non-null and the
internal pointer otherwise, passes the runtime through untouched (it never
allocates), and the Boolean conversion is true exactly when get is
non-null; a default-constructed handle has get null and converts to
false. -/
theorem C6_get_projection :
    (∀ w : DevicePtrWrapper,
      w.get = (if w.d_external_ ≠ 0 then w.d_external_ else w.d_internal_)
      ∧ (w.toBool = true ↔ w.get ≠ 0))
    ∧ (∀ (w : DevicePtrWrapper) (h : Heap), w.getH h = (w.get, h))
    ∧ freshW.get = 0 ∧ freshW.toBool = false := by
  refine ⟨fun w => ⟨?_, ?_⟩, fun w h => rfl, rfl, rfl⟩
  · unfold DevicePtrWrapper.get DevicePtrWrapper.isExternal
    by_cases hx : w.d_external_ = 0
    · rw [if_neg (by simp [hx]), if_neg (by simp [hx])]
    · rw [if_pos (bne_iff_ne.mpr hx), if_pos hx]
  · unfold DevicePtrWrapper.toBool
    exact bne_iff_ne

/-- C7: either copy primitive called with a null host or null device
pointer performs no transfer (the destination contents are returned
unmodified) and raises no error. -/
theorem C7_copy_null_noop (dmem hmem : Mem) (device host n : Nat)
    (s : CudaStatus) (hnull : host = 0 ∨ device = 0) :
    gpu_memcpy_h2d dmem hmem device host n s = (dmem, false)
    ∧ gpu_memcpy_d2h hmem dmem host device n s = (hmem, false) := by
  constructor
  · unfold gpu_memcpy_h2d
    rw [if_pos hnull]
  · unfold gpu_memcpy_d2h
    rw [if_pos hnull]

/-- Witness for C7_copy_null_noop with a null host pointer. -/
theorem C7_copy_null_noop_witness :
    ((0 : Nat) = 0 ∨ (7 : Nat) = 0)
    ∧ (gpu_memcpy_h2d (fun _ => 0) (fun _ => 37) 7 0 3 (CudaStatus.failure 1)
        = ((fun _ => 0), false)
       ∧ gpu_memcpy_d2h (fun _ => 37) (fun _ => 0) 0 7 3 (CudaStatus.failure 1)
        = ((fun _ => 37), false)) :=
  ⟨Or.inl rfl,
   C7_copy_null_noop (fun _ => 0) (fun _ => 37) 7 0 3 (CudaStatus.failure 1) (Or.inl rfl)⟩

/-- C8: in every handle state, setting a null external pointer yields
exactly the same state as unset_external; and on a handle with an internal
buffer, setting a non-null external pointer and then unsetting it makes get
return the internal buffer again. -/
theorem C8_set_unset_roundtrip (w : DevicePtrWrapper) (p : Nat) :
    w.set_external 0 = w.unset_external
    ∧ (w.d_internal_ ≠ 0 → p ≠ 0 →
        ((w.set_external p).unset_external).get = w.d_internal_) := by
  exact ⟨rfl, fun hi hp => rfl⟩

/-- Witness for C8_set_unset_roundtrip on the handle with internal buffer 1
and external pointer 5. -/
theorem C8_set_unset_roundtrip_witness :
    (⟨0, 1, 1⟩ : DevicePtrWrapper).set_external 0 = (⟨0, 1, 1⟩ : DevicePtrWrapper).unset_external
    ∧ (((⟨0, 1, 1⟩ : DevicePtrWrapper).set_external 5).unset_external).get = 1 :=
  ⟨(C8_set_unset_roundtrip ⟨0, 1, 1⟩ 5).1,
   (C8_set_unset_roundtrip ⟨0, 1, 1⟩ 5).2 (by decide) (by decide)⟩

/-- C9: the destructor passes exactly the internal pointer to gpu_free when
one exists and touches nothing otherwise — in particular the external
pointer is never freed and the malloc log and counter are unchanged — and
gpu_free on a null pointer is a no-op that raises no failure. -/
theorem C9_destructor_frees_internal_only (w : DevicePtrWrapper) (h : Heap)
    (s : CudaStatus) :
    (w.destruct h).freeCalls
        = (if w.d_internal_ ≠ 0 then [w.d_internal_] else []) ++ h.freeCalls
    ∧ (w.destruct h).mallocCalls = h.mallocCalls
    ∧ (w.destruct h).next = h.next
    ∧ gpu_free h 0 = h
    ∧ gpu_free_raises 0 s = false := by
  refine ⟨?_, ?_, ?_, rfl, rfl⟩ <;>
    · unfold DevicePtrWrapper.destruct gpu_free
      by_cases hi : w.d_internal_ = 0
      · simp [hi]
      · simp [hi, bne_iff_ne.mpr hi]

/-- C10: the raw-pointer assignment operator produces exactly the same
state as set_external in every handle state, and neither entry point
changes the internal pointer, the recorded capacity, or the runtime
state. -/
theorem C10_assign_equals_set_external (w : DevicePtrWrapper) (h : Heap)
    (p : Nat) :
    w.assignPtr p = w.set_external p
    ∧ step (w, h) (Op.assignP p) = step (w, h) (Op.setExt p)
    ∧ (w.assignPtr p).d_internal_ = w.d_internal_
    ∧ (w.assignPtr p).size_ = w.size_
    ∧ (step (w, h) (Op.assignP p)).2 = h :=
  ⟨rfl, rfl, rfl, rfl, rfl⟩
